import Mathlib

/-!
# Chemical Equipment Visualizer: session, navigation and fetch orchestration

A shallow embedding of the client-side state logic of the React front end
(`App.js`, `DatasetList.js`, `DatasetDetail.js`, `Dashboard.js`,
`UploadCSV.js`).

Modelling conventions:

* a React state cell is a structure field, a setter call is a record update;
* JavaScript `null` / `undefined` is `none`;
* an `async` handler is split at its `await`: the part after the `await` is a
  function of the way the awaited `fetch` settled (`Response`), and a `fetch`
  that never settles is `Await.never`, for which the part after the `await`
  never runs;
* a closure reads the state of the render that created it, so a value that a
  handler reads after its `await` is an explicit argument (`captured`).
-/

namespace ChemViz

/-! ## Network outcomes -/

/-- How an awaited `fetch` inside a `try` block settles.
`ok` is a response with `response.ok` whose body was read; `rejected` is a
response with `!response.ok` (any non-2xx status), `error` being the `error`
field of its JSON body when there is one; `networkError` is any exception
thrown inside the `try` (transport failure), which lands in `catch`. -/
inductive Response (α : Type) where
  | ok (body : α)
  | rejected (status : Nat) (error : Option String)
  | networkError
  deriving Repr, DecidableEq

/-- An awaited promise either settles with a value or never does. -/
inductive Await (α : Type) where
  | settled (a : α)
  | never
  deriving Repr, DecidableEq

/-! ## Data -/

/-- The user profile returned by `/auth/user/`; only `username` is read. -/
structure User where
  username : String
  deriving Repr, DecidableEq

/-- One entry of the dataset list. The averages are floating point numbers
that the state logic never inspects; they are left out. -/
structure DatasetSummary where
  id : Nat
  filename : String
  total_count : Nat
  deriving Repr, DecidableEq

/-- The four values ever assigned to `currentView`. -/
inductive View where
  | dashboard
  | upload
  | history
  | detail
  deriving Repr, DecidableEq

/-- JavaScript truthiness of a value that is `null` or a string. -/
def truthy : Option String → Bool
  | none => false
  | some t => t != ""

/-! ## App.js -/

/-- The four `useState` cells of `App` (lines 14-17) together with the
`token` key of `localStorage`. -/
structure AppState where
  token : Option String
  user : Option User
  currentView : View
  selectedDataset : Option DatasetSummary
  localStorage : Option String
  deriving Repr, DecidableEq

namespace App

/-- Initial state of `App` (lines 14-17): `token` is read from storage. -/
def init (persisted : Option String) : AppState :=
  { token := persisted
    user := none
    currentView := View.dashboard
    selectedDataset := none
    localStorage := persisted }

/-- The setter `setCurrentView`. -/
def setCurrentView (v : View) (s : AppState) : AppState :=
  { s with currentView := v }

/-- The setter `setSelectedDataset`. -/
def setSelectedDataset (d : Option DatasetSummary) (s : AppState) : AppState :=
  { s with selectedDataset := d }

/-- The setter `setToken`. -/
def setToken (t : Option String) (s : AppState) : AppState :=
  { s with token := t }

/-- The setter `setUser`. -/
def setUser (u : Option User) (s : AppState) : AppState :=
  { s with user := u }

/-- The call `localStorage.setItem(token, t)`. -/
def storageSetItem (t : String) (s : AppState) : AppState :=
  { s with localStorage := some t }

/-- The call `localStorage.removeItem(token)`. -/
def storageRemoveItem (s : AppState) : AppState :=
  { s with localStorage := none }

/-- The body of `useEffect(..., [token])` (lines 19-23): whether `fetchUser`
is called for the given token. -/
def effectFetchesUser (token : Option String) : Bool :=
  truthy token

/-- Function `handleLogin` (lines 44-48). -/
def handleLogin (token : String) (userData : User) (s : AppState) : AppState :=
  storageSetItem token (setUser (some userData) (setToken (some token) s))

/-- The statements of `handleLogout` after its `try`/`catch` (lines 62-65). -/
def handleLogoutCleanup (s : AppState) : AppState :=
  setCurrentView View.dashboard
    (storageRemoveItem (setUser none (setToken none s)))

/-- Function `handleLogout` (lines 50-66), run against the way its awaited
logout `fetch` settles. The response is never inspected: a resolved promise
(2xx or not) falls through the `try`, a rejected promise is caught and
logged, and in both cases lines 62-65 run. While the promise is unsettled the
handler is suspended at line 52 and has changed nothing. -/
def handleLogout (notification : Await (Response Unit)) (s : AppState) : AppState :=
  match notification with
  | Await.settled (Response.ok _) => handleLogoutCleanup s
  | Await.settled (Response.rejected _ _) => handleLogoutCleanup s
  | Await.settled Response.networkError => handleLogoutCleanup s
  | Await.never => s

/-- The part of `fetchUser` after its `await fetch` (lines 33-41), up to the
call of `handleLogout`, which is not awaited. The result is the new state and
whether `handleLogout` was called. -/
def fetchUserSettle (r : Response User) (s : AppState) : AppState × Bool :=
  match r with
  | Response.ok data => (setUser (some data) s, false)
  | Response.rejected _ _ => (s, true)
  | Response.networkError => (s, false)

/-- Function `fetchUser` (lines 25-42) run to quiescence: `whoami` is the way
the `/auth/user/` fetch settles, `notification` the way the logout fetch of
the `handleLogout` it may call settles. -/
def fetchUser (whoami : Await (Response User)) (notification : Await (Response Unit))
    (s : AppState) : AppState :=
  match whoami with
  | Await.never => s
  | Await.settled r =>
    match fetchUserSettle r s with
    | (s1, true) => handleLogout notification s1
    | (s1, false) => s1

/-- Function `handleDatasetSelect` (lines 68-71). -/
def handleDatasetSelect (dataset : DatasetSummary) (s : AppState) : AppState :=
  setCurrentView View.detail (setSelectedDataset (some dataset) s)

/-- The state between the two setter calls of `handleDatasetSelect`
(after line 69, before line 70). -/
def handleDatasetSelectMid (dataset : DatasetSummary) (s : AppState) : AppState :=
  setSelectedDataset (some dataset) s

/-- The `onBack` callback handed to `DatasetDetail` (line 141). -/
def onBack (s : AppState) : AppState :=
  setCurrentView View.history s

/-- The `onUploadSuccess` callback handed to `UploadCSV` (line 126). -/
def onUploadSuccess (s : AppState) : AppState :=
  setCurrentView View.history s

/-- The render gate of line 73: the auth screens are shown. -/
def rendersAuth (s : AppState) : Bool :=
  !truthy s.token

end App

/-! ## Requests -/

/-- The endpoints the client calls. -/
inductive Endpoint where
  | authUser
  | authLogout
  | datasets
  | dataset (id : Nat)
  | report (id : Nat)
  | upload (fileName : String)
  | delete (id : Nat)
  deriving Repr, DecidableEq

/-- One issued `fetch`: the endpoint and the token of its `Authorization`
header (the `token` of the issuing render). -/
structure Request where
  endpoint : Endpoint
  token : Option String
  deriving Repr, DecidableEq

/-! ## DatasetList.js -/

/-- The three `useState` cells of `DatasetList` (lines 4-6). -/
structure DatasetListState where
  datasets : List DatasetSummary
  loading : Bool
  error : String
  deriving Repr, DecidableEq

/-- A DELETE in flight: the id it was issued for and the `datasets` value of
the render whose `handleDelete` closure issued it (read again at line 47). -/
structure PendingDelete where
  id : Nat
  captured : List DatasetSummary
  deriving Repr, DecidableEq

/-- What `DatasetList` returns (lines 54-106): the loading line, the
empty-state block, or the grid with its optional error message and cards. -/
inductive DatasetListView where
  | loading
  | emptyState
  | grid (error : Option String) (cards : List DatasetSummary)
  deriving Repr, DecidableEq

namespace DatasetList

/-- Initial state of `DatasetList` (lines 4-6). -/
def init : DatasetListState :=
  { datasets := [], loading := true, error := "" }

/-- Function `fetchDatasets` (lines 12-31) run against the way its fetch
settles; `finally` runs on every settled path. -/
def fetchDatasets (r : Await (Response (List DatasetSummary)))
    (st : DatasetListState) : DatasetListState :=
  match r with
  | Await.never => st
  | Await.settled (Response.ok data) =>
    { st with datasets := data, loading := false }
  | Await.settled (Response.rejected _ _) =>
    { st with error := "Failed to fetch datasets", loading := false }
  | Await.settled Response.networkError =>
    { st with error := "Network error", loading := false }

/-- Function `handleDelete` up to its `await` (lines 33-45): nothing is
issued unless the user confirms; the closure keeps the `datasets` of the
current render. -/
def handleDelete (confirmed : Bool) (id : Nat) (st : DatasetListState) :
    Option PendingDelete :=
  if confirmed then some { id := id, captured := st.datasets } else none

/-- Function `handleDelete` after its `await` (lines 46-51): on `response.ok`
the list is set to the captured `datasets` filtered by `ds.id !== id`. -/
def handleDeleteSettle (p : PendingDelete) (r : Response Unit)
    (st : DatasetListState) : DatasetListState :=
  match r with
  | Response.ok _ =>
    { st with datasets := p.captured.filter (fun ds => ds.id != p.id) }
  | Response.rejected _ _ => st
  | Response.networkError => st

/-- The render branches of `DatasetList` (lines 54-106). -/
def render (st : DatasetListState) : DatasetListView :=
  if st.loading then DatasetListView.loading
  else if st.datasets.length == 0 then DatasetListView.emptyState
  else DatasetListView.grid (if st.error != "" then some st.error else none) st.datasets

end DatasetList

/-! ## DatasetDetail.js -/

/-- One row of the `equipment` table (the three measurements are floating
point numbers that the state logic never inspects). -/
structure Equipment where
  id : Nat
  equipment_name : String
  equipment_type : String
  deriving Repr, DecidableEq

/-- The payload of `/datasets/{id}/`. -/
structure DatasetPayload where
  id : Nat
  filename : String
  equipment : List Equipment
  deriving Repr, DecidableEq

/-- The three `useState` cells of `DatasetDetail` (lines 5-7). -/
structure DatasetDetailState where
  dataset : Option DatasetPayload
  loading : Bool
  error : String
  deriving Repr, DecidableEq

namespace DatasetDetail

/-- Initial state of `DatasetDetail` (lines 5-7). -/
def init : DatasetDetailState :=
  { dataset := none, loading := true, error := "" }

/-- Function `fetchDataset` (lines 13-32) run against the way its fetch
settles. -/
def fetchDataset (r : Await (Response DatasetPayload))
    (st : DatasetDetailState) : DatasetDetailState :=
  match r with
  | Await.never => st
  | Await.settled (Response.ok data) =>
    { st with dataset := some data, loading := false }
  | Await.settled (Response.rejected _ _) =>
    { st with error := "Failed to fetch dataset details", loading := false }
  | Await.settled Response.networkError =>
    { st with error := "Network error", loading := false }

/-- Function `downloadPDF` (lines 34-55): the file name under which the
browser saves the report, if it saves one. `captured` is the `dataset` of the
issuing render. -/
def downloadPDF (r : Response Unit) (captured : Option DatasetPayload) :
    Option String :=
  match r with
  | Response.ok _ => captured.map (fun d => "report_" ++ d.filename ++ ".pdf")
  | Response.rejected _ _ => none
  | Response.networkError => none

end DatasetDetail

/-! ## Dashboard.js -/

/-- The three `useState` cells of `Dashboard` (lines 25-27). -/
structure DashboardState where
  datasets : List DatasetSummary
  loading : Bool
  latestDataset : Option DatasetSummary
  deriving Repr, DecidableEq

namespace Dashboard

/-- Initial state of `Dashboard` (lines 25-27). -/
def init : DashboardState :=
  { datasets := [], loading := true, latestDataset := none }

/-- Function `fetchDatasets` of `Dashboard` (lines 33-53) run against the way
its fetch settles. -/
def fetchDatasets (r : Await (Response (List DatasetSummary)))
    (st : DashboardState) : DashboardState :=
  match r with
  | Await.never => st
  | Await.settled (Response.ok data) =>
    { st with
      datasets := data
      latestDataset := if data.length > 0 then data.head? else st.latestDataset
      loading := false }
  | Await.settled (Response.rejected _ _) => { st with loading := false }
  | Await.settled Response.networkError => { st with loading := false }

end Dashboard

/-! ## UploadCSV.js -/

/-- A file chosen in the file input; only `name` is read. -/
structure File where
  name : String
  deriving Repr, DecidableEq

/-- The four `useState` cells of `UploadCSV` (lines 4-7). -/
structure UploadState where
  file : Option File
  uploading : Bool
  error : String
  success : String
  deriving Repr, DecidableEq

/-- JavaScript `s.endsWith(suffix)`, on the characters of the two strings. -/
def endsWith (s suffix : String) : Bool :=
  suffix.data.isSuffixOf s.data

namespace UploadCSV

/-- Initial state of `UploadCSV` (lines 4-7). -/
def init : UploadState :=
  { file := none, uploading := false, error := "", success := "" }

/-- Function `handleFileChange` (lines 9-18); `selectedFile` is
`e.target.files[0]`, absent for an empty selection. The result is the new
state and the requests issued. -/
def handleFileChange (selectedFile : Option File) (st : UploadState) :
    UploadState × List Request :=
  match selectedFile with
  | some f =>
    if endsWith f.name ".csv" then ({ st with file := some f, error := "" }, [])
    else ({ st with error := "Please select a valid CSV file", file := none }, [])
  | none => ({ st with error := "Please select a valid CSV file", file := none }, [])

/-- Function `handleSubmit` up to its `await` (lines 20-42): the new state
and the requests issued. -/
def handleSubmit (token : Option String) (st : UploadState) :
    UploadState × List Request :=
  match st.file with
  | none => ({ st with error := "Please select a file" }, [])
  | some f =>
    ({ st with uploading := true, error := "", success := "" },
      [{ endpoint := Endpoint.upload f.name, token := token }])

/-- The expression `data.error || 'Upload failed'` (line 55). -/
def uploadErrorMessage (error : Option String) : String :=
  match error with
  | some e => if e != "" then e else "Upload failed"
  | none => "Upload failed"

/-- Function `handleSubmit` after its `await` (lines 44-61); `captured` is
the `file` of the issuing render. The result is the new state and whether the
1500 ms timer that calls `onUploadSuccess` was started. -/
def handleSubmitSettle (captured : File) (r : Response Unit) (st : UploadState) :
    UploadState × Bool :=
  match r with
  | Response.ok _ =>
    ({ st with
        success := "Successfully uploaded " ++ captured.name ++ "!"
        file := none
        uploading := false }, true)
  | Response.rejected _ error =>
    ({ st with error := uploadErrorMessage error, uploading := false }, false)
  | Response.networkError =>
    ({ st with error := "Network error. Please try again.", uploading := false }, false)

/-- The `disabled` attribute of the submit button (line 96). -/
def submitDisabled (st : UploadState) : Bool :=
  st.uploading || st.file.isNone

end UploadCSV

/-! ## The whole client: which state each authenticated fetch can write -/

/-- The state of `App` and of its four views, and the files saved by the
browser. -/
structure Client where
  app : AppState
  dashboard : DashboardState
  list : DatasetListState
  detail : DatasetDetailState
  upload : UploadState
  downloads : List String
  deriving Repr, DecidableEq

/-- The authenticated fetches of the client. `upload` and `delete` carry what
their closures captured when they were issued. -/
inductive Fetcher where
  | currentUser
  | dashboardList
  | historyList
  | datasetDetail
  | report
  | upload (captured : File)
  | delete (p : PendingDelete)
  deriving Repr, DecidableEq

/-- The views' fetchers: every authenticated fetch except `App.fetchUser`. -/
def Fetcher.isViewFetcher : Fetcher → Bool
  | Fetcher.currentUser => false
  | _ => true

/-- The client after the fetch of fetcher `f` settles with a response that
is not `ok`, each fetcher running its own code. `notification` is the way the
logout fetch settles, should `handleLogout` be called. The timer flag of
`handleSubmitSettle` is `false` on these paths. -/
def Client.settleRejected (f : Fetcher) (status : Nat) (error : Option String)
    (notification : Await (Response Unit)) (c : Client) : Client :=
  match f with
  | Fetcher.currentUser =>
    { c with app :=
        App.fetchUser (Await.settled (Response.rejected status error)) notification c.app }
  | Fetcher.dashboardList =>
    { c with dashboard :=
        Dashboard.fetchDatasets (Await.settled (Response.rejected status error)) c.dashboard }
  | Fetcher.historyList =>
    { c with list :=
        DatasetList.fetchDatasets (Await.settled (Response.rejected status error)) c.list }
  | Fetcher.datasetDetail =>
    { c with detail :=
        DatasetDetail.fetchDataset (Await.settled (Response.rejected status error)) c.detail }
  | Fetcher.report =>
    match DatasetDetail.downloadPDF (Response.rejected status error) c.detail.dataset with
    | some name => { c with downloads := c.downloads ++ [name] }
    | none => c
  | Fetcher.upload captured =>
    { c with upload :=
        (UploadCSV.handleSubmitSettle captured (Response.rejected status error) c.upload).1 }
  | Fetcher.delete p =>
    { c with list :=
        DatasetList.handleDeleteSettle p (Response.rejected status error) c.list }

/-! ## The App as an event system -/

/-- The state of `App` together with its requests in flight: the tokens of
the `fetchUser` calls not yet settled (oldest first) and the number of logout
fetches not yet settled. -/
structure Sys where
  app : AppState
  whoami : List String
  logouts : Nat
  deriving Repr, DecidableEq

/-- The three buttons of the nav bar (lines 99-118). -/
inductive NavButton where
  | dashboard
  | upload
  | history
  deriving Repr, DecidableEq

/-- The view a nav button sets. -/
def NavButton.view : NavButton → View
  | NavButton.dashboard => View.dashboard
  | NavButton.upload => View.upload
  | NavButton.history => View.history

/-- What can happen to a running `App`: user actions and settling fetches. -/
inductive Event where
  | login (token : String) (userData : User)
  | clickLogout
  | nav (b : NavButton)
  | select (dataset : DatasetSummary)
  | back
  | uploadTimer
  | whoamiSettles (i : Nat) (r : Response User)
  | logoutSettles (r : Response Unit)
  deriving Repr, DecidableEq

namespace Sys

/-- Startup: `App` mounts with the persisted token and the effect of lines
19-23 runs once. -/
def init (persisted : Option String) : Sys :=
  { app := App.init persisted
    whoami :=
      match persisted with
      | some t => if App.effectFetchesUser (some t) then [t] else []
      | none => []
    logouts := 0 }

/-- The effect of lines 19-23 after a render: it runs when `token` differs
from the previous render, and calls `fetchUser` when the token is truthy. -/
def afterRender (old : Option String) (s : Sys) : Sys :=
  match s.app.token with
  | some t =>
    if s.app.token != old && App.effectFetchesUser (some t) then
      { s with whoami := s.whoami ++ [t] }
    else s
  | none => s

/-- One event. The result is `none` when the event cannot happen in `s`:
a button that is not rendered, or a completion of a fetch not in flight.
`login` is the `onLogin` callback of a settled Login or Register fetch and
`uploadTimer` the timer of an earlier successful upload, which nothing
cancels; both may fire in any state. -/
def step (s : Sys) : Event → Option Sys
  | Event.login token userData =>
    some (afterRender s.app.token { s with app := App.handleLogin token userData s.app })
  | Event.clickLogout =>
    if truthy s.app.token then some { s with logouts := s.logouts + 1 } else none
  | Event.nav b =>
    if truthy s.app.token then some { s with app := App.setCurrentView b.view s.app }
    else none
  | Event.select dataset =>
    if truthy s.app.token && s.app.currentView == View.history then
      some { s with app := App.handleDatasetSelect dataset s.app }
    else none
  | Event.back =>
    if truthy s.app.token && s.app.currentView == View.detail
        && s.app.selectedDataset.isSome then
      some { s with app := App.onBack s.app }
    else none
  | Event.uploadTimer => some { s with app := App.onUploadSuccess s.app }
  | Event.whoamiSettles i r =>
    if i < s.whoami.length then
      match App.fetchUserSettle r s.app with
      | (app1, true) =>
        some { app := app1, whoami := s.whoami.eraseIdx i, logouts := s.logouts + 1 }
      | (app1, false) =>
        some { app := app1, whoami := s.whoami.eraseIdx i, logouts := s.logouts }
    else none
  | Event.logoutSettles r =>
    if 0 < s.logouts then
      some (afterRender s.app.token
        { s with
          app := App.handleLogout (Await.settled r) s.app
          logouts := s.logouts - 1 })
    else none

/-- A sequence of events from `s`; `none` if one of them cannot happen. -/
def run (s : Sys) : List Event → Option Sys
  | [] => some s
  | e :: es =>
    match step s e with
    | some s1 => run s1 es
    | none => none

/-- The event is a successful whoami completion arriving while the token is
absent. -/
def staleWhoami (s : Sys) : Event → Bool
  | Event.whoamiSettles _ (Response.ok _) => s.app.token.isNone
  | _ => false

/-- No event of the sequence is a successful whoami completion arriving
while the token is absent. -/
def noStaleWhoami (s : Sys) : List Event → Bool
  | [] => true
  | e :: es =>
    !staleWhoami s e &&
      match step s e with
      | some s1 => noStaleWhoami s1 es
      | none => true

end Sys

/-- One completion of `fetchUser`, a fetcher that is triggered again on every
change of `token`: the position of its call among the calls still in flight
when it arrives (oldest first, from 0) and how it settled. -/
structure Completion (α : Type) where
  call : Nat
  response : Response α
  deriving Repr, DecidableEq

/-- The events of a list of whoami completions, in their order of arrival. -/
def whoamiArrivals (cs : List (Completion User)) : List Event :=
  cs.map (fun c => Event.whoamiSettles c.call c.response)

/-- The body of the last successful completion to arrive, if there is one. -/
def lastOkArrival {α : Type} : List (Completion α) → Option α
  | [] => none
  | c :: cs =>
    match lastOkArrival cs with
    | some d => some d
    | none =>
      match c.response with
      | Response.ok d => some d
      | Response.rejected _ _ => none
      | Response.networkError => none

/-- The number of rejected completions among the arrivals. -/
def rejectedArrivals {α : Type} : List (Completion α) → Nat
  | [] => 0
  | c :: cs =>
    (match c.response with
     | Response.ok _ => 0
     | Response.rejected _ _ => 1
     | Response.networkError => 0) + rejectedArrivals cs

/-! ## Examples and reference functions used in the statements -/

/-- The logged-in client used in the examples: token `abc`, user `ana`, the
History view open with two datasets loaded. -/
def exampleClient : Client :=
  { app :=
      { token := some "abc", user := some ⟨"ana"⟩, currentView := View.history,
        selectedDataset := none, localStorage := some "abc" }
    dashboard := Dashboard.init
    list :=
      { datasets := [⟨1, "a.csv", 3⟩, ⟨2, "b.csv", 5⟩], loading := false, error := "" }
    detail := DatasetDetail.init
    upload := UploadCSV.init
    downloads := [] }

/-- The logged-in `App` state of the examples, on the detail view of
dataset 7. -/
def exampleDetailApp : AppState :=
  { token := some "abc", user := some ⟨"ana"⟩, currentView := View.detail,
    selectedDataset := some ⟨7, "a.csv", 3⟩, localStorage := some "abc" }

/-- The History list of the examples: datasets 1, 2 and 3, loaded. -/
def exampleList : DatasetListState :=
  { datasets := [⟨1, "a.csv", 3⟩, ⟨2, "b.csv", 5⟩, ⟨3, "c.csv", 4⟩]
    loading := false
    error := "" }

/-- A run of the examples: the whoami of startup succeeds, the user logs
out, the logout fetch settles, and a second user logs in. -/
def exampleRelogin : List Event :=
  [Event.whoamiSettles 0 (Response.ok ⟨"ana"⟩), Event.clickLogout,
   Event.logoutSettles (Response.rejected 500 none), Event.login "xyz" ⟨"bob"⟩]

/-- The state in which `exampleRelogin` ends when started with the persisted
token `abc`. -/
def exampleReloginEnd : Sys :=
  { app :=
      { token := some "xyz", user := some ⟨"bob"⟩, currentView := View.dashboard,
        selectedDataset := none, localStorage := some "xyz" }
    whoami := ["xyz"]
    logouts := 0 }

/-- A state of the examples with two whoami calls in flight: the one issued
at startup with the persisted token `A`, and the one issued after a logout
and a login of `bob` with token `B`. -/
def exampleTwoInFlight : Sys :=
  { app :=
      { token := some "B", user := some ⟨"bob"⟩, currentView := View.dashboard,
        selectedDataset := none, localStorage := some "B" }
    whoami := ["A", "B"]
    logouts := 0 }

/-! ## Theorems -/

/-- C1 (as the code behaves): for every session state, whenever the logout
notification settles (it succeeds, is rejected, or fails with a network
error), `handleLogout` ends with token absent, user absent and the persisted
token removed; while the notification never resolves the state is unchanged. -/
theorem handleLogout_settled_clears (s : AppState) :
    (∀ r : Response Unit,
      (App.handleLogout (Await.settled r) s).token = none
      ∧ (App.handleLogout (Await.settled r) s).user = none
      ∧ (App.handleLogout (Await.settled r) s).localStorage = none)
    ∧ App.handleLogout Await.never s = s := by
  refine ⟨?_, rfl⟩
  intro r
  cases r <;> simp [App.handleLogout, App.handleLogoutCleanup, App.setCurrentView,
    App.storageRemoveItem, App.setUser, App.setToken]

/-- C1 counterexample: with a logged-in session whose logout notification
never resolves, `handleLogout` leaves the token, the user and the persisted
token in place. -/
theorem handleLogout_never_keeps_token :
    (App.handleLogout Await.never
      { token := some "abc", user := some ⟨"ana"⟩, currentView := View.history,
        selectedDataset := none, localStorage := some "abc" }).token = some "abc"
    ∧ (App.handleLogout Await.never
      { token := some "abc", user := some ⟨"ana"⟩, currentView := View.history,
        selectedDataset := none, localStorage := some "abc" }).user = some ⟨"ana"⟩
    ∧ (App.handleLogout Await.never
      { token := some "abc", user := some ⟨"ana"⟩, currentView := View.history,
        selectedDataset := none, localStorage := some "abc" }).localStorage = some "abc" := by
  decide

/-- C2 (as the code behaves): only `App.fetchUser` routes a rejected response
to the session cleanup: when its fetch is rejected and the logout
notification settles, token and user are absent and the auth screens render.
For every other authenticated fetch (dataset list in Dashboard and History,
dataset detail, report download, upload, delete) a rejected response leaves
the whole `App` state, token and user included, as it was. -/
theorem settleRejected_session (c : Client) (status : Nat) (error : Option String) :
    (∀ r : Response Unit,
      (Client.settleRejected Fetcher.currentUser status error (Await.settled r) c).app.token
          = none
      ∧ (Client.settleRejected Fetcher.currentUser status error (Await.settled r) c).app.user
          = none
      ∧ App.rendersAuth
          (Client.settleRejected Fetcher.currentUser status error (Await.settled r) c).app
          = true)
    ∧ (∀ (f : Fetcher) (n : Await (Response Unit)), f.isViewFetcher = true →
        (Client.settleRejected f status error n c).app = c.app) := by
  constructor
  · intro r
    cases r <;> simp [Client.settleRejected, App.fetchUser, App.fetchUserSettle,
      App.handleLogout, App.handleLogoutCleanup, App.setCurrentView, App.storageRemoveItem,
      App.setUser, App.setToken, App.rendersAuth, truthy]
  · intro f n hf
    cases f with
    | currentUser => simp [Fetcher.isViewFetcher] at hf
    | report => simp [Client.settleRejected, DatasetDetail.downloadPDF]
    | _ => simp [Client.settleRejected]

/-- C2 witness: the History list fetch rejected with 401 on the example
client leaves its `App` state untouched. -/
theorem settleRejected_session_witness :
    (Client.settleRejected Fetcher.historyList 401 none Await.never exampleClient).app
      = exampleClient.app :=
  (settleRejected_session exampleClient 401 none).2 Fetcher.historyList Await.never
    (by decide)

/-- C2 counterexample: the History list fetch of a logged-in client is
rejected with 401; the token and the user are still present and the auth
screens do not render, only the list shows an error. -/
theorem historyList_401_keeps_session :
    truthy exampleClient.app.token = true
    ∧ (Client.settleRejected Fetcher.historyList 401 none
        (Await.settled (Response.ok ())) exampleClient).app.token = some "abc"
    ∧ (Client.settleRejected Fetcher.historyList 401 none
        (Await.settled (Response.ok ())) exampleClient).app.user = some ⟨"ana"⟩
    ∧ App.rendersAuth (Client.settleRejected Fetcher.historyList 401 none
        (Await.settled (Response.ok ())) exampleClient).app = false
    ∧ (Client.settleRejected Fetcher.historyList 401 none
        (Await.settled (Response.ok ())) exampleClient).list.error
        = "Failed to fetch datasets" := by
  decide

/-- C4: for every navigation state and every dataset, `handleDatasetSelect`
yields `currentView = detail` and `selectedDataset` equal to that dataset,
and neither the state between its two setter calls nor the state after them
has `currentView = detail` with an absent selection. -/
theorem handleDatasetSelect_detail_with_selection (s : AppState) (d : DatasetSummary) :
    (App.handleDatasetSelect d s).currentView = View.detail
    ∧ (App.handleDatasetSelect d s).selectedDataset = some d
    ∧ ¬ ((App.handleDatasetSelectMid d s).currentView = View.detail
          ∧ (App.handleDatasetSelectMid d s).selectedDataset = none)
    ∧ ¬ ((App.handleDatasetSelect d s).currentView = View.detail
          ∧ (App.handleDatasetSelect d s).selectedDataset = none) := by
  simp [App.handleDatasetSelect, App.handleDatasetSelectMid, App.setCurrentView,
    App.setSelectedDataset]

/-- C8 (as the code behaves): for every navigation state, the Back action of
the detail view yields `currentView = history` and leaves `selectedDataset`
as it was; in particular a selected dataset stays selected. -/
theorem onBack_history_keeps_selection (s : AppState) :
    (App.onBack s).currentView = View.history
    ∧ (App.onBack s).selectedDataset = s.selectedDataset := by
  simp [App.onBack, App.setCurrentView]

/-- C8 counterexample: from the detail view with dataset 7 selected, Back
yields the history view with dataset 7 still selected, not absent. -/
theorem onBack_selection_not_cleared :
    (App.onBack
      { token := some "abc", user := some ⟨"ana"⟩, currentView := View.detail,
        selectedDataset := some ⟨7, "a.csv", 3⟩, localStorage := some "abc" }).currentView
      = View.history
    ∧ (App.onBack
      { token := some "abc", user := some ⟨"ana"⟩, currentView := View.detail,
        selectedDataset := some ⟨7, "a.csv", 3⟩, localStorage := some "abc" }).selectedDataset
      = some ⟨7, "a.csv", 3⟩
    ∧ (App.onBack
      { token := some "abc", user := some ⟨"ana"⟩, currentView := View.detail,
        selectedDataset := some ⟨7, "a.csv", 3⟩, localStorage := some "abc" }).selectedDataset
      ≠ none := by
  decide

/-- C9: for every Upload state and every chosen file whose name does not end
with `.csv`, as well as for an empty selection, `handleFileChange` leaves the
selected file absent and the error message non-empty, the submit button is
disabled in the resulting state, and no request is issued. -/
theorem handleFileChange_rejects_non_csv (st : UploadState) (selectedFile : Option File)
    (h : ∀ f, selectedFile = some f → endsWith f.name ".csv" = false) :
    (UploadCSV.handleFileChange selectedFile st).1.file = none
    ∧ (UploadCSV.handleFileChange selectedFile st).1.error ≠ ""
    ∧ UploadCSV.submitDisabled (UploadCSV.handleFileChange selectedFile st).1 = true
    ∧ (UploadCSV.handleFileChange selectedFile st).2 = [] := by
  cases selectedFile with
  | none => simp [UploadCSV.handleFileChange, UploadCSV.submitDisabled]
  | some f =>
    have hf := h f rfl
    simp [UploadCSV.handleFileChange, UploadCSV.submitDisabled, hf]

/-- C9 witness: with `data.csv` selected, choosing `notes.txt` clears the
selection, sets an error and disables the submit button. -/
theorem handleFileChange_rejects_non_csv_witness :
    (UploadCSV.handleFileChange (some ⟨"notes.txt"⟩)
      { file := some ⟨"data.csv"⟩, uploading := false, error := "", success := "" }).1.file
      = none
    ∧ (UploadCSV.handleFileChange (some ⟨"notes.txt"⟩)
      { file := some ⟨"data.csv"⟩, uploading := false, error := "", success := "" }).1.error
      ≠ ""
    ∧ UploadCSV.submitDisabled (UploadCSV.handleFileChange (some ⟨"notes.txt"⟩)
      { file := some ⟨"data.csv"⟩, uploading := false, error := "", success := "" }).1
      = true
    ∧ (UploadCSV.handleFileChange (some ⟨"notes.txt"⟩)
      { file := some ⟨"data.csv"⟩, uploading := false, error := "", success := "" }).2
      = [] :=
  handleFileChange_rejects_non_csv
    { file := some ⟨"data.csv"⟩, uploading := false, error := "", success := "" }
    (some ⟨"notes.txt"⟩)
    (by intro f hf; cases hf; decide)

/-- The effect of lines 19-23 writes no state of `App`. -/
theorem afterRender_app (old : Option String) (s : Sys) :
    (Sys.afterRender old s).app = s.app := by
  unfold Sys.afterRender
  split
  · split <;> rfl
  · rfl

/-- One event keeps: the detail view only with a selected dataset. -/
theorem step_keeps_selection (s s1 : Sys) (e : Event) (h : Sys.step s e = some s1)
    (hinv : s.app.currentView = View.detail → s.app.selectedDataset.isSome = true) :
    s1.app.currentView = View.detail → s1.app.selectedDataset.isSome = true := by
  cases e with
  | login token userData =>
    simp only [Sys.step, Option.some.injEq] at h
    subst h
    rw [afterRender_app]
    simpa [App.handleLogin, App.storageSetItem, App.setUser, App.setToken] using hinv
  | clickLogout =>
    simp only [Sys.step] at h
    split at h
    · simp only [Option.some.injEq] at h
      subst h
      exact hinv
    · simp at h
  | nav b =>
    simp only [Sys.step] at h
    split at h
    · simp only [Option.some.injEq] at h
      subst h
      cases b <;> simp [App.setCurrentView, NavButton.view]
    · simp at h
  | select dataset =>
    simp only [Sys.step] at h
    split at h
    · simp only [Option.some.injEq] at h
      subst h
      simp [App.handleDatasetSelect, App.setCurrentView, App.setSelectedDataset]
    · simp at h
  | back =>
    simp only [Sys.step] at h
    split at h
    · simp only [Option.some.injEq] at h
      subst h
      simp [App.onBack, App.setCurrentView]
    · simp at h
  | uploadTimer =>
    simp only [Sys.step, Option.some.injEq] at h
    subst h
    simp [App.onUploadSuccess, App.setCurrentView]
  | whoamiSettles i r =>
    simp only [Sys.step] at h
    split at h
    · cases r <;> simp only [App.fetchUserSettle, Option.some.injEq] at h <;> subst h
      · simpa [App.setUser] using hinv
      · exact hinv
      · exact hinv
    · simp at h
  | logoutSettles r =>
    simp only [Sys.step] at h
    split at h
    · simp only [Option.some.injEq] at h
      subst h
      rw [afterRender_app]
      cases r <;> simp [App.handleLogout, App.handleLogoutCleanup, App.setCurrentView,
        App.storageRemoveItem, App.setUser, App.setToken]
    · simp at h

/-- A run keeps: the detail view only with a selected dataset. -/
theorem run_keeps_selection (evs : List Event) (s0 s : Sys)
    (h : Sys.run s0 evs = some s)
    (hinv : s0.app.currentView = View.detail → s0.app.selectedDataset.isSome = true) :
    s.app.currentView = View.detail → s.app.selectedDataset.isSome = true := by
  induction evs generalizing s0 with
  | nil =>
    simp only [Sys.run, Option.some.injEq] at h
    subst h
    exact hinv
  | cons e es ih =>
    simp only [Sys.run] at h
    cases hstep : Sys.step s0 e with
    | none => simp [hstep] at h
    | some s1 =>
      simp only [hstep] at h
      exact ih s1 h (step_keeps_selection s0 s1 e hstep hinv)

/-- C5: in every state reachable from the initial state of `App` (whatever
token is persisted) by any sequence of nav-bar clicks, dataset selections,
Back, upload-success navigation, logins, logouts and completions of their
fetches, `currentView = detail` implies that `selectedDataset` is present. -/
theorem reachable_detail_has_selection (persisted : Option String) (evs : List Event)
    (s : Sys) (h : Sys.run (Sys.init persisted) evs = some s)
    (hd : s.app.currentView = View.detail) :
    s.app.selectedDataset.isSome = true :=
  run_keeps_selection evs (Sys.init persisted) s h
    (by intro h0; cases persisted <;> simp [Sys.init, App.init] at h0) hd

/-- C5 witness: after opening History and selecting dataset 7 the detail
view is shown with dataset 7 selected. -/
theorem reachable_detail_has_selection_witness :
    Sys.run (Sys.init (some "abc"))
        [Event.nav NavButton.history, Event.select ⟨7, "a.csv", 3⟩]
      = some { app := { exampleDetailApp with user := none }, whoami := ["abc"], logouts := 0 }
    ∧ ({ exampleDetailApp with user := none } : AppState).selectedDataset.isSome = true :=
  ⟨by decide,
   reachable_detail_has_selection (some "abc")
     [Event.nav NavButton.history, Event.select ⟨7, "a.csv", 3⟩]
     { app := { exampleDetailApp with user := none }, whoami := ["abc"], logouts := 0 }
     (by decide) (by decide)⟩

/-- One event that is not a stale successful whoami completion keeps: a
user only with a token. -/
theorem step_keeps_user_token (s s1 : Sys) (e : Event) (h : Sys.step s e = some s1)
    (hfresh : Sys.staleWhoami s e = false)
    (hinv : s.app.user.isSome = true → s.app.token.isSome = true) :
    s1.app.user.isSome = true → s1.app.token.isSome = true := by
  cases e with
  | login token userData =>
    simp only [Sys.step, Option.some.injEq] at h
    subst h
    rw [afterRender_app]
    simp [App.handleLogin, App.storageSetItem, App.setUser, App.setToken]
  | clickLogout =>
    simp only [Sys.step] at h
    split at h
    · simp only [Option.some.injEq] at h
      subst h
      exact hinv
    · simp at h
  | nav b =>
    simp only [Sys.step] at h
    split at h
    · simp only [Option.some.injEq] at h
      subst h
      simpa [App.setCurrentView] using hinv
    · simp at h
  | select dataset =>
    simp only [Sys.step] at h
    split at h
    · simp only [Option.some.injEq] at h
      subst h
      simpa [App.handleDatasetSelect, App.setCurrentView, App.setSelectedDataset] using hinv
    · simp at h
  | back =>
    simp only [Sys.step] at h
    split at h
    · simp only [Option.some.injEq] at h
      subst h
      simpa [App.onBack, App.setCurrentView] using hinv
    · simp at h
  | uploadTimer =>
    simp only [Sys.step, Option.some.injEq] at h
    subst h
    simpa [App.onUploadSuccess, App.setCurrentView] using hinv
  | whoamiSettles i r =>
    simp only [Sys.step] at h
    split at h
    · cases r <;> simp only [App.fetchUserSettle, Option.some.injEq] at h <;> subst h
      · intro _
        simpa [Sys.staleWhoami, App.setUser] using hfresh
      · exact hinv
      · exact hinv
    · simp at h
  | logoutSettles r =>
    simp only [Sys.step] at h
    split at h
    · simp only [Option.some.injEq] at h
      subst h
      rw [afterRender_app]
      cases r <;> simp [App.handleLogout, App.handleLogoutCleanup, App.setCurrentView,
        App.storageRemoveItem, App.setUser, App.setToken]
    · simp at h

/-- A run without stale successful whoami completions keeps: a user only
with a token. -/
theorem run_keeps_user_token (evs : List Event) (s0 s : Sys)
    (h : Sys.run s0 evs = some s) (hfresh : Sys.noStaleWhoami s0 evs = true)
    (hinv : s0.app.user.isSome = true → s0.app.token.isSome = true) :
    s.app.user.isSome = true → s.app.token.isSome = true := by
  induction evs generalizing s0 with
  | nil =>
    simp only [Sys.run, Option.some.injEq] at h
    subst h
    exact hinv
  | cons e es ih =>
    simp only [Sys.run] at h
    cases hstep : Sys.step s0 e with
    | none => simp [hstep] at h
    | some s1 =>
      simp only [hstep] at h
      simp only [Sys.noStaleWhoami, hstep, Bool.and_eq_true, Bool.not_eq_true'] at hfresh
      exact ih s1 h hfresh.2 (step_keeps_user_token s0 s1 e hstep hfresh.1 hinv)

/-- C6 (as the code behaves): in every state reachable by any interleaving
of login, logout, startup restore, navigation and the completions of their
fetches in which no successful whoami completion arrives while the token is
absent, the user is present only if the token is present. -/
theorem reachable_user_has_token (persisted : Option String) (evs : List Event)
    (s : Sys) (h : Sys.run (Sys.init persisted) evs = some s)
    (hfresh : Sys.noStaleWhoami (Sys.init persisted) evs = true)
    (hu : s.app.user.isSome = true) :
    s.app.token.isSome = true :=
  run_keeps_user_token evs (Sys.init persisted) s h hfresh
    (by intro h0; cases persisted <;> simp [Sys.init, App.init] at h0) hu

/-- C6 witness: startup with a persisted token whose whoami succeeds, then a
logout that settles and a new login: the run has no stale whoami completion,
the user of the new login is present and so is its token. -/
theorem reachable_user_has_token_witness :
    Sys.run (Sys.init (some "abc")) exampleRelogin = some exampleReloginEnd
    ∧ Sys.noStaleWhoami (Sys.init (some "abc")) exampleRelogin = true
    ∧ exampleReloginEnd.app.user.isSome = true
    ∧ exampleReloginEnd.app.token.isSome = true :=
  ⟨by decide, by decide, by decide,
   reachable_user_has_token (some "abc") exampleRelogin exampleReloginEnd
     (by decide) (by decide) (by decide)⟩

/-- C6 counterexample: startup with a persisted token, the user logs out and
the logout settles while the whoami fetch is still in flight; the whoami
fetch then succeeds. The user is present and the token is absent. -/
theorem whoami_after_logout_sets_user :
    (Sys.run (Sys.init (some "abc"))
        [Event.clickLogout, Event.logoutSettles (Response.ok ()),
         Event.whoamiSettles 0 (Response.ok ⟨"ana"⟩)]).map
        (fun s => (s.app.token, s.app.user, s.app.localStorage))
      = some (none, some ⟨"ana"⟩, none) := by
  decide

/-- C7 (as the code behaves): at startup with a persisted non-empty token
the whoami fetch is issued; if it is rejected and the logout notification
that `handleLogout` then sends settles, the persisted token is cleared and
token and user are absent; if it fails with a network error the error is only
logged and the state stays the initial one, token and persisted token kept. -/
theorem startup_whoami_failure (t : String) (ht : t ≠ "") :
    Sys.init (some t) = { app := App.init (some t), whoami := [t], logouts := 0 }
    ∧ (∀ (status : Nat) (error : Option String) (r : Response Unit),
        (App.fetchUser (Await.settled (Response.rejected status error)) (Await.settled r)
            (App.init (some t))).token = none
        ∧ (App.fetchUser (Await.settled (Response.rejected status error)) (Await.settled r)
            (App.init (some t))).user = none
        ∧ (App.fetchUser (Await.settled (Response.rejected status error)) (Await.settled r)
            (App.init (some t))).localStorage = none)
    ∧ (∀ n : Await (Response Unit),
        App.fetchUser (Await.settled Response.networkError) n (App.init (some t))
          = App.init (some t)) := by
  refine ⟨?_, ?_, ?_⟩
  · simp [Sys.init, App.effectFetchesUser, truthy, ht]
  · intro status error r
    cases r <;> simp [App.fetchUser, App.fetchUserSettle, App.handleLogout,
      App.handleLogoutCleanup, App.setCurrentView, App.storageRemoveItem, App.setUser,
      App.setToken]
  · intro n
    simp [App.fetchUser, App.fetchUserSettle]

/-- C7 witness: startup with the persisted token `abc`. -/
theorem startup_whoami_failure_witness :
    Sys.init (some "abc") = { app := App.init (some "abc"), whoami := ["abc"], logouts := 0 }
    ∧ (App.fetchUser (Await.settled (Response.rejected 401 none))
        (Await.settled (Response.ok ())) (App.init (some "abc"))).localStorage = none :=
  ⟨(startup_whoami_failure "abc" (by decide)).1,
   ((startup_whoami_failure "abc" (by decide)).2.1 401 none (Response.ok ())).2.2⟩

/-- C7 counterexample: startup with the persisted token `abc`, the whoami
fetch fails with a network error: the token and the persisted token are both
still `abc`. -/
theorem whoami_network_error_keeps_token :
    (App.fetchUser (Await.settled Response.networkError) (Await.settled (Response.ok ()))
        (App.init (some "abc"))).token = some "abc"
    ∧ (App.fetchUser (Await.settled Response.networkError) (Await.settled (Response.ok ()))
        (App.init (some "abc"))).localStorage = some "abc" := by
  decide

/-- C10 at the failing input: with datasets 1, 2 and 3 listed, deletes of 1
and of 2 are confirmed in the same render and both succeed. After the first
completion the list is 2, 3; after the second it is 1, 3: dataset 1 is
back, where removing id 2 from the list as it stood gives 3 alone. -/
theorem handleDelete_stale_list_restores_deleted :
    DatasetList.handleDelete true 1 exampleList
      = some { id := 1, captured := exampleList.datasets }
    ∧ DatasetList.handleDelete true 2 exampleList
      = some { id := 2, captured := exampleList.datasets }
    ∧ (DatasetList.handleDeleteSettle { id := 1, captured := exampleList.datasets }
        (Response.ok ()) exampleList).datasets
      = [⟨2, "b.csv", 5⟩, ⟨3, "c.csv", 4⟩]
    ∧ (DatasetList.handleDeleteSettle { id := 2, captured := exampleList.datasets }
        (Response.ok ())
        (DatasetList.handleDeleteSettle { id := 1, captured := exampleList.datasets }
          (Response.ok ()) exampleList)).datasets
      = [⟨1, "a.csv", 3⟩, ⟨3, "c.csv", 4⟩]
    ∧ (DatasetList.handleDeleteSettle { id := 1, captured := exampleList.datasets }
        (Response.ok ()) exampleList).datasets.filter (fun ds => ds.id != 2)
      = [⟨3, "c.csv", 4⟩] := by
  decide

/-- C11 (as the code behaves): for every state of the History list and
every id, a confirmed delete captures the current list, and when the server
rejects it (any non-2xx status, whatever the body) the whole state is left as
it was: the list is unchanged and no error message is set, so the view
renders as before. -/
theorem handleDelete_rejected_changes_nothing (st : DatasetListState) (id status : Nat)
    (error : Option String) :
    DatasetList.handleDelete true id st = some { id := id, captured := st.datasets }
    ∧ (∀ p : PendingDelete,
        DatasetList.handleDeleteSettle p (Response.rejected status error) st = st)
    ∧ (DatasetList.handleDeleteSettle { id := id, captured := st.datasets }
        (Response.rejected status error) st).datasets = st.datasets
    ∧ (DatasetList.handleDeleteSettle { id := id, captured := st.datasets }
        (Response.rejected status error) st).error = st.error
    ∧ DatasetList.render (DatasetList.handleDeleteSettle { id := id, captured := st.datasets }
        (Response.rejected status error) st) = DatasetList.render st := by
  refine ⟨?_, ?_, ?_, ?_, ?_⟩
  · simp [DatasetList.handleDelete]
  · intro p
    rfl
  · rfl
  · rfl
  · rfl

/-- C11 counterexample: with datasets 1, 2 and 3 listed and no error shown,
a confirmed delete of the nonexistent id 7 is rejected with 404. The list is
unchanged, but the error message is still empty and the grid is rendered
without an error line. -/
theorem handleDelete_rejected_sets_no_error :
    DatasetList.handleDelete true 7 exampleList
      = some { id := 7, captured := exampleList.datasets }
    ∧ (DatasetList.handleDeleteSettle { id := 7, captured := exampleList.datasets }
        (Response.rejected 404 (some "Not found")) exampleList).datasets
      = exampleList.datasets
    ∧ (DatasetList.handleDeleteSettle { id := 7, captured := exampleList.datasets }
        (Response.rejected 404 (some "Not found")) exampleList).error = ""
    ∧ DatasetList.render
        (DatasetList.handleDeleteSettle { id := 7, captured := exampleList.datasets }
          (Response.rejected 404 (some "Not found")) exampleList)
      = DatasetListView.grid none exampleList.datasets := by
  decide

/-- C12 at the failing inputs: the History view mounts and its list fetch
is rejected (any status and body) or fails with a network error. Loading
becomes false and the error cell holds the message, but the list is still
empty, so the view returns the empty-state block of line 58 and the error
line of line 71 is never reached. A successful empty list renders the same
empty-state block. -/
theorem fetchDatasets_failure_renders_empty_state (status : Nat) (error : Option String) :
    DatasetList.fetchDatasets (Await.settled (Response.rejected status error))
        DatasetList.init
      = { datasets := [], loading := false, error := "Failed to fetch datasets" }
    ∧ DatasetList.render
        (DatasetList.fetchDatasets (Await.settled (Response.rejected status error))
          DatasetList.init)
      = DatasetListView.emptyState
    ∧ DatasetList.fetchDatasets (Await.settled Response.networkError) DatasetList.init
      = { datasets := [], loading := false, error := "Network error" }
    ∧ DatasetList.render
        (DatasetList.fetchDatasets (Await.settled Response.networkError) DatasetList.init)
      = DatasetListView.emptyState
    ∧ DatasetList.render
        (DatasetList.fetchDatasets (Await.settled (Response.ok [])) DatasetList.init)
      = DatasetListView.emptyState := by
  refine ⟨?_, ?_, ?_, ?_, ?_⟩ <;>
    simp [DatasetList.fetchDatasets, DatasetList.init, DatasetList.render]

/-- One whoami completion: what it writes, whichever call it belongs to. -/
theorem step_whoami_cells (s s1 : Sys) (i : Nat) (r : Response User)
    (h : Sys.step s (Event.whoamiSettles i r) = some s1) :
    s1.app.user
        = (match r with
           | Response.ok d => some d
           | Response.rejected _ _ => s.app.user
           | Response.networkError => s.app.user)
    ∧ s1.app.token = s.app.token
    ∧ s1.app.localStorage = s.app.localStorage
    ∧ s1.logouts
        = s.logouts
          + (match r with
             | Response.ok _ => 0
             | Response.rejected _ _ => 1
             | Response.networkError => 0) := by
  simp only [Sys.step] at h
  split at h
  · cases r <;> simp only [App.fetchUserSettle, Option.some.injEq] at h <;> subst h <;>
      simp [App.setUser]
  · simp at h

/-- One event that starts and ends on the detail view leaves the selected
dataset, the `datasetId` of the mounted `DatasetDetail`, as it was. -/
theorem step_detail_keeps_datasetId (s s2 : Sys) (e : Event)
    (h : Sys.step s e = some s2) (hd : s.app.currentView = View.detail)
    (hd2 : s2.app.currentView = View.detail) :
    s2.app.selectedDataset = s.app.selectedDataset := by
  cases e with
  | login token userData =>
    simp only [Sys.step, Option.some.injEq] at h
    subst h
    rw [afterRender_app]
    simp [App.handleLogin, App.storageSetItem, App.setUser, App.setToken]
  | clickLogout =>
    simp only [Sys.step] at h
    split at h
    · simp only [Option.some.injEq] at h
      subst h
      rfl
    · simp at h
  | nav b =>
    simp only [Sys.step] at h
    split at h
    · simp only [Option.some.injEq] at h
      subst h
      simp [App.setCurrentView]
    · simp at h
  | select dataset =>
    simp only [Sys.step] at h
    split at h
    · rename_i hg
      simp [hd] at hg
    · simp at h
  | back =>
    simp only [Sys.step] at h
    split at h
    · simp only [Option.some.injEq] at h
      subst h
      simp [App.onBack, App.setCurrentView]
    · simp at h
  | uploadTimer =>
    simp only [Sys.step, Option.some.injEq] at h
    subst h
    simp [App.onUploadSuccess, App.setCurrentView]
  | whoamiSettles i r =>
    simp only [Sys.step] at h
    split at h
    · cases r <;> simp only [App.fetchUserSettle, Option.some.injEq] at h <;> subst h <;>
        simp [App.setUser]
    · simp at h
  | logoutSettles r =>
    simp only [Sys.step] at h
    split at h
    · simp only [Option.some.injEq] at h
      subst h
      rw [afterRender_app]
      cases r <;> simp [App.handleLogout, App.handleLogoutCleanup, App.setCurrentView,
        App.storageRemoveItem, App.setUser, App.setToken]
    · simp at h

/-- A list of whoami completions applied in their order of arrival. -/
theorem run_whoamiArrivals_cells (cs : List (Completion User)) (s s1 : Sys)
    (h : Sys.run s (whoamiArrivals cs) = some s1) :
    s1.app.user
        = (match lastOkArrival cs with
           | some d => some d
           | none => s.app.user)
    ∧ s1.app.token = s.app.token
    ∧ s1.app.localStorage = s.app.localStorage
    ∧ s1.logouts = s.logouts + rejectedArrivals cs := by
  induction cs generalizing s with
  | nil =>
    simp only [whoamiArrivals, List.map_nil, Sys.run, Option.some.injEq] at h
    subst h
    simp [lastOkArrival, rejectedArrivals]
  | cons c cs ih =>
    simp only [whoamiArrivals, List.map_cons, Sys.run] at h
    cases hstep : Sys.step s (Event.whoamiSettles c.call c.response) with
    | none => simp [hstep] at h
    | some s0 =>
      simp only [hstep] at h
      obtain ⟨hu, ht, hl, hn⟩ := step_whoami_cells s s0 c.call c.response hstep
      obtain ⟨iu, it, il, inn⟩ := ih s0 h
      refine ⟨?_, it.trans ht, il.trans hl, ?_⟩
      · rw [iu, hu]
        rcases c with ⟨k, r⟩
        cases r <;> cases hok : lastOkArrival cs <;> simp [lastOkArrival, hok]
      · rw [inn, hn]
        rcases c with ⟨k, r⟩
        cases r <;> simp [rejectedArrivals]
        omega

/-- C3 (as the code behaves): `App.fetchUser` is the fetcher whose calls
overlap, one being issued on every change of `token`. For every state of
`App` and every list of completions of its calls in flight, in their order of
arrival and whichever calls they belong to, each completion is applied when
it arrives: after all of them the user is the payload of the last successful
completion to arrive (the previous user if none succeeded), every rejected
completion has started one `handleLogout`, and token and persisted token are
as they were. For `DatasetDetail.fetchDataset`, every event of `App` that
starts and ends on the detail view leaves the selected dataset, the
`datasetId` of the mounted instance, unchanged. -/
theorem completions_apply_in_arrival_order (s s1 : Sys) (cs : List (Completion User))
    (h : Sys.run s (whoamiArrivals cs) = some s1) :
    s1.app.user
        = (match lastOkArrival cs with
           | some d => some d
           | none => s.app.user)
    ∧ s1.app.token = s.app.token
    ∧ s1.app.localStorage = s.app.localStorage
    ∧ s1.logouts = s.logouts + rejectedArrivals cs
    ∧ (∀ (e : Event) (s2 : Sys), Sys.step s e = some s2 →
        s.app.currentView = View.detail → s2.app.currentView = View.detail →
        s2.app.selectedDataset = s.app.selectedDataset) := by
  obtain ⟨hu, ht, hl, hn⟩ := run_whoamiArrivals_cells cs s s1 h
  exact ⟨hu, ht, hl, hn, fun e s2 he hd hd2 => step_detail_keeps_datasetId s s2 e he hd hd2⟩

/-- C3 witness: with the whoami calls of tokens `A` and `B` in flight, the
completion of the later call arrives first and the one of the earlier call
last; the user ends as the payload of the last arrival. -/
theorem completions_apply_in_arrival_order_witness :
    Sys.run exampleTwoInFlight
        (whoamiArrivals [⟨1, Response.ok ⟨"bob"⟩⟩, ⟨0, Response.ok ⟨"ana"⟩⟩])
      = some { exampleTwoInFlight with
                app := { exampleTwoInFlight.app with user := some ⟨"ana"⟩ }
                whoami := [] }
    ∧ ({ exampleTwoInFlight with
          app := { exampleTwoInFlight.app with user := some ⟨"ana"⟩ }
          whoami := [] } : Sys).app.user = some ⟨"ana"⟩ :=
  ⟨by decide,
   (completions_apply_in_arrival_order exampleTwoInFlight
      { exampleTwoInFlight with
        app := { exampleTwoInFlight.app with user := some ⟨"ana"⟩ }
        whoami := [] }
      [⟨1, Response.ok ⟨"bob"⟩⟩, ⟨0, Response.ok ⟨"ana"⟩⟩] (by decide)).1⟩

/-- C3 counterexample: `App` starts with the persisted token `A`, so a
whoami call for `A` is in flight; the user logs out, the logout settles, and
`bob` logs in with token `B`, which issues a second whoami call. The
completion of the second call arrives first and sets user `bob`. The
completion of the first call arrives last: if it succeeded, the user of the
`B` session becomes `ana`; if it was rejected, the `handleLogout` it starts
clears the `B` session. Either way the state of the most recently issued
call is overwritten by a completion of the earlier one. -/
theorem stale_completion_overwrites :
    (Sys.run (Sys.init (some "A"))
        [Event.clickLogout, Event.logoutSettles (Response.ok ()),
         Event.login "B" ⟨"bob"⟩]).map
        (fun s => (s.app.token, s.app.user, s.whoami))
      = some (some "B", some ⟨"bob"⟩, ["A", "B"])
    ∧ (Sys.run (Sys.init (some "A"))
        [Event.clickLogout, Event.logoutSettles (Response.ok ()),
         Event.login "B" ⟨"bob"⟩,
         Event.whoamiSettles 1 (Response.ok ⟨"bob"⟩)]).map
        (fun s => (s.app.token, s.app.user, s.whoami))
      = some (some "B", some ⟨"bob"⟩, ["A"])
    ∧ (Sys.run (Sys.init (some "A"))
        [Event.clickLogout, Event.logoutSettles (Response.ok ()),
         Event.login "B" ⟨"bob"⟩,
         Event.whoamiSettles 1 (Response.ok ⟨"bob"⟩),
         Event.whoamiSettles 0 (Response.ok ⟨"ana"⟩)]).map
        (fun s => (s.app.token, s.app.user, s.whoami))
      = some (some "B", some ⟨"ana"⟩, [])
    ∧ (Sys.run (Sys.init (some "A"))
        [Event.clickLogout, Event.logoutSettles (Response.ok ()),
         Event.login "B" ⟨"bob"⟩,
         Event.whoamiSettles 1 (Response.ok ⟨"bob"⟩),
         Event.whoamiSettles 0 (Response.rejected 401 none),
         Event.logoutSettles (Response.ok ())]).map
        (fun s => (s.app.token, s.app.user, s.app.localStorage))
      = some (none, none, none) := by
  decide

end ChemViz
